import Mathlib

/-
Shallow embedding of the docker-check-is-latest Go program (src/main.go,
src/docker.go).  Network traffic is modelled by an oracle `Net` mapping
requests to responses; the program's global mutable state (the run cache,
the accumulated check results and the log output) is threaded explicitly
through a `RunState`.  Each HTTP request the program issues is recorded in
`RunState.trace` as the pair (image, tag) it was issued for, so that
claims about the number and the targets of network calls can be stated.
Go slice indexing that can panic is modelled by `List.get?`; a panic of
the process is the `POutcome.crash` outcome.  The unbounded GHCR
pagination loop is given explicit fuel (a maximal page count); running
out of fuel is the `POutcome.spin` outcome, distinct from every
behaviour the program exhibits on terminating runs.
-/

/-- Mirrors Go struct MultiplePlatformImageInfo: one per-platform digest entry
of a Docker Hub multi-arch manifest. -/
structure MultiplePlatformImageInfo where
  digest : String
  os : String
  architecture : String
deriving DecidableEq

/-- Mirrors Go struct ImageInfo: the normalized registry response. -/
structure ImageInfo where
  digest : String
  multiplePlatformImageInfoList : List MultiplePlatformImageInfo
  tags : List String
deriving DecidableEq

/-- Mirrors Go struct GHCRVersion: one entry of a GHCR package-versions page. -/
structure GHCRVersion where
  digest : String
  apiUrl : String
  tags : List String
deriving DecidableEq

/-- Mirrors Go struct CheckResult. -/
structure CheckResult where
  container : String
  image : String
  isLatest : String
deriving DecidableEq

/-- One container observation, from types.Container and types.ImageInspect:
the fields of the Docker API data that main actually reads. -/
structure ContainerObs where
  names : List String
  image : String
  repoDigests : List String
  os : String
  architecture : String
deriving DecidableEq

/-- The command-line configuration: the two global flag variables. -/
structure Config where
  ghcrToken : String
  outputPath : String
deriving DecidableEq

/-- Outcome of one HTTP request, as the Go code distinguishes them:
transport failure (client.Do), body read failure (io.ReadAll), JSON decode
failure (json.Unmarshal), or a successfully decoded body of type a. -/
inductive HttpResp (a : Type) where
  | netError
  | readError
  | decodeError
  | ok (body : a)
deriving DecidableEq

/-- The decoded shape of a Docker Hub tags-detail response.  `images = none`
models a JSON body in which the images field is null or absent (Go: the
slice is nil); `images = some l` models a present list l. -/
structure DockerHubBody where
  digest : String
  images : Option (List MultiplePlatformImageInfo)
deriving DecidableEq

/-- The network oracle: what each registry endpoint would answer.
`dockerHub ns name tag` is the Docker Hub tags-detail response;
`ghcr ns name page` is the GHCR package-versions response for one page. -/
structure Net where
  dockerHub : String → String → String → HttpResp DockerHubBody
  ghcr : String → String → Nat → HttpResp (List GHCRVersion)

/-- The program's run-scoped mutable state: the cache map (association
list, most recent write first), the issued-request trace (image, tag) in
order, the log output lines of check(), and the checkResults slice. -/
structure RunState where
  cache : List (String × ImageInfo)
  trace : List (String × String)
  logs : List CheckResult
  checkResults : List CheckResult
deriving DecidableEq

/-- The error values GetRemoteDockerInfo can return, one constructor per
return site of an error in the Go source. -/
inductive DockerErr where
  | missingGhcrToken
  | unsupportedImage (image : String)
  | netError (image : String)
  | readError
  | decodeError
  | nilImages
  | emptyImages (image : String) (tag : String)
  | noMatchingVersions (image : String) (tag : String)
deriving DecidableEq

deriving instance DecidableEq for Except

/-- Splitting a character list at every occurrence of a separator, the
accumulator holding the current segment reversed.  Executable counterpart
of Go strings.Split for a one-character separator (Lean's String.splitOn
is not kernel-reducible, so the embedding carries its own). -/
def splitCharAux (sep : Char) : List Char → List Char → List (List Char)
  | [], acc => [acc.reverse]
  | c :: cs, acc =>
    if c = sep then acc.reverse :: splitCharAux sep cs []
    else splitCharAux sep cs (c :: acc)

/-- Go strings.Split s sep for a one-character separator: always returns at
least one segment; the empty string yields one empty segment. -/
def goSplit (s : String) (sep : Char) : List String :=
  (splitCharAux sep s.data []).map (fun l => String.mk l)

/-- Go strings.Contains s c for a one-character substring. -/
def goContains (s : String) (c : Char) : Bool :=
  s.data.contains c

/-- Mirrors func check: always log the result line; append to checkResults
only when an output path was given. -/
def check (cfg : Config) (containerName : String) (image : String) (isLatest : String) (s : RunState) : RunState :=
  let s1 := { s with logs := s.logs ++ [⟨containerName, image, isLatest⟩] }
  if cfg.outputPath ≠ "" then
    { s1 with checkResults := s1.checkResults ++ [⟨containerName, image, isLatest⟩] }
  else s1

/-- Mirrors lines 78-89 of GetRemoteDockerInfo: split the image string on
slashes; the last segment is the name, the second-to-last (if present) the
namespace else library, the third-to-last (if present) the registry else
docker.io.  Returns (registry, namespace, name). -/
def parseImageRef (image : String) : String × String × String :=
  let imagePart := goSplit image '/'
  let n := imagePart.length
  let name := imagePart.getD (n - 1) ""
  let nspace := if 2 ≤ n then imagePart.getD (n - 2) "" else "library"
  let registry := if 3 ≤ n then imagePart.getD (n - 3) "" else "docker.io"
  (registry, nspace, name)

/-- The docker.io branch of the request loop: one GET of the tags-detail
endpoint.  A nil images slice and an empty images slice are both errors;
on success the info is cached under image:tag and returned. -/
def dockerHubFetch (net : Net) (nspace : String) (name : String) (image : String) (tag : String) (s : RunState) : Except DockerErr ImageInfo × RunState :=
  let s1 := { s with trace := s.trace ++ [(image, tag)] }
  match net.dockerHub nspace name tag with
  | .netError => (.error (.netError image), s1)
  | .readError => (.error .readError, s1)
  | .decodeError => (.error .decodeError, s1)
  | .ok body =>
    match body.images with
    | none => (.error .nilImages, s1)
    | some imgs =>
      if imgs.length = 0 then (.error (.emptyImages image tag), s1)
      else
        let info : ImageInfo := ⟨body.digest, imgs, []⟩
        (.ok info, { s1 with cache := (image ++ ":" ++ tag, info) :: s1.cache })

/-- Result of scanning one GHCR versions page (the inner for-loop over
resVersions): a returned ImageInfo, the early empty-ImageInfo return of
the digest-less branch, or fall-through to the next page. -/
inductive GhcrScanOutcome where
  | found (info : ImageInfo)
  | emptyOk
  | nextPage
deriving DecidableEq

/-- Mirrors the for-loop over resVersions in GetRemoteDockerInfo
(lines 168-187): with a non-empty digest, look for an entry whose digest
matches; with an empty digest, inspect only the first entry and either
return it (its tag list contains the tag) or return the empty ImageInfo. -/
def ghcrScan (digest : String) (tag : String) : List GHCRVersion → GhcrScanOutcome
  | [] => .nextPage
  | v :: rest =>
    if digest ≠ "" ∧ v.digest = digest then
      .found ⟨v.digest, [], v.tags⟩
    else if digest = "" then
      if v.tags.contains tag then .found ⟨v.digest, [], v.tags⟩
      else .emptyOk
    else ghcrScan digest tag rest

/-- The empty ImageInfo value (Go zero value). -/
def emptyImageInfo : ImageInfo := ⟨"", [], []⟩

/-- The GHCR page loop of GetRemoteDockerInfo: fetch page after page until
a scan returns, a page fails to decode, or a page comes back empty.  The
fuel argument bounds how many pages may be fetched; exhausting it models
the loop not terminating (`none`). -/
def ghcrLoop (net : Net) (nspace : String) (name : String) (image : String) (tag : String) (digest : String) : Nat → Nat → RunState → Option (Except DockerErr ImageInfo × RunState)
  | 0, _, _ => none
  | fuel + 1, page, s =>
    let s1 := { s with trace := s.trace ++ [(image, tag)] }
    match net.ghcr nspace name page with
    | .netError => some (.error (.netError image), s1)
    | .readError => some (.error .readError, s1)
    | .decodeError => some (.error .decodeError, s1)
    | .ok versions =>
      if versions.length = 0 then some (.error (.noMatchingVersions image tag), s1)
      else
        match ghcrScan digest tag versions with
        | .found info => some (.ok info, { s1 with cache := (image ++ ":" ++ tag, info) :: s1.cache })
        | .emptyOk => some (.ok emptyImageInfo, s1)
        | .nextPage => ghcrLoop net nspace name image tag digest fuel (page + 1) s1

/-- Mirrors func GetRemoteDockerInfo: cache lookup first, then registry
dispatch from the parsed image reference; docker.io issues one request,
ghcr.io requires a token and runs the page loop, anything else is an
unsupported-registry error before any request. -/
def GetRemoteDockerInfo (cfg : Config) (net : Net) (fuel : Nat) (image : String) (tag : String) (digest : String) (s : RunState) : Option (Except DockerErr ImageInfo × RunState) :=
  match s.cache.lookup (image ++ ":" ++ tag) with
  | some v => some (.ok v, s)
  | none =>
    if (parseImageRef image).1 = "docker.io" then
      some (dockerHubFetch net (parseImageRef image).2.1 (parseImageRef image).2.2 image tag s)
    else if (parseImageRef image).1 = "ghcr.io" then
      if cfg.ghcrToken = "" then some (.error .missingGhcrToken, s)
      else ghcrLoop net (parseImageRef image).2.1 (parseImageRef image).2.2 image tag digest fuel 1 s
    else some (.error (.unsupportedImage image), s)

/-- The list of versions the oracle serves on one GHCR page (empty when
the response is not a decodable success). -/
def ghcrPage (net : Net) (nspace : String) (name : String) (page : Nat) : List GHCRVersion :=
  match net.ghcr nspace name page with
  | .ok l => l
  | _ => []

/-- Outcome of processing one container: normal completion with the new
state, a runtime panic (out-of-range slice index), or a non-terminating
GHCR pagination loop. -/
inductive POutcome where
  | done (s : RunState)
  | crash
  | spin
deriving DecidableEq

/-- Mirrors lines 242-245 of main: the registry is the third-from-last
slash segment when the image string has more than two segments, else
docker.io.  Computed on the image string before the tag is stripped. -/
def mainRegistry (imageName : String) : String :=
  let imagePart := goSplit imageName '/'
  if 2 < imagePart.length then imagePart.getD (imagePart.length - 3) "" else "docker.io"

/-- Mirrors lines 247-251 of main: if the image string contains a colon,
the part before the first colon is the name and the part between the first
and second colon is the tag; otherwise the tag is latest. -/
def stripTag (imageName : String) : String × String :=
  if goContains imageName ':' then
    ((goSplit imageName ':').getD 0 "", (goSplit imageName ':').getD 1 "")
  else (imageName, "latest")

/-- Mirrors the platform-digest selection loops of main (lines 301-305 and
312-316): fold over the list keeping the digest of the last entry whose
os and architecture both match, starting from the empty string. -/
def selectDigest (l : List MultiplePlatformImageInfo) (osv : String) (arch : String) : String :=
  l.foldl (fun acc img => if img.os = osv ∧ img.architecture = arch then img.digest else acc) ""

/-- The part of main's per-container body from the current-tag lookup on
(line 273 to line 333): resolve the container's own tag, then the ghcr.io
tag-list comparison and the docker.io platform-digest comparison. -/
def afterLatest (cfg : Config) (net : Net) (fuel : Nat) (name : String) (imageName : String) (imageTag : String) (imageDigest : String) (registry : String) (osv : String) (arch : String) (latest : ImageInfo) (s : RunState) : POutcome :=
  match GetRemoteDockerInfo cfg net fuel imageName imageTag imageDigest s with
  | none => .spin
  | some (.error _, s1) => .done (check cfg name (imageName ++ ":" ++ imageTag) "unknown" s1)
  | some (.ok current, s1) =>
    if registry = "ghcr.io" then
      if current.tags.contains "latest" then
        .done (check cfg name (imageName ++ ":" ++ imageTag) "yes" s1)
      else
        .done (check cfg name (imageName ++ ":" ++ imageTag) "no" s1)
    else if registry = "docker.io" then
      if selectDigest current.multiplePlatformImageInfoList osv arch = "" then
        .done (check cfg name (imageName ++ ":" ++ imageTag) "unknown" s1)
      else
        if selectDigest latest.multiplePlatformImageInfoList osv arch = "" then
          .done (check cfg name (imageName ++ ":" ++ imageTag) "unknown" s1)
        else if selectDigest current.multiplePlatformImageInfoList osv arch ≠ selectDigest latest.multiplePlatformImageInfoList osv arch then
          .done (check cfg name (imageName ++ ":" ++ imageTag) "no" s1)
        else
          .done (check cfg name (imageName ++ ":" ++ imageTag) "yes" s1)
    else
      .done (check cfg name (imageName ++ ":" ++ imageTag) "unknown" s1)

/-- The body of main's per-container loop (lines 239-333).  The three
unchecked slice indexings - Names at 0, RepoDigests at 0, and element 1 of
the at-sign split - crash when out of range.  For docker.io images the
latest tag is resolved first and the digest-equality and latest-tag
short-circuits apply; otherwise, and on fall-through, control reaches
afterLatest. -/
def processContainer (cfg : Config) (net : Net) (fuel : Nat) (obs : ContainerObs) (s : RunState) : POutcome :=
  match obs.names.get? 0 with
  | none => .crash
  | some name =>
    match obs.repoDigests.get? 0 with
    | none => .crash
    | some rd =>
      match (goSplit rd '@').get? 1 with
      | none => .crash
      | some imageDigest =>
        if mainRegistry obs.image = "docker.io" then
          match GetRemoteDockerInfo cfg net fuel (stripTag obs.image).1 "latest" "" s with
          | none => .spin
          | some (.error _, s1) =>
            .done (check cfg name ((stripTag obs.image).1 ++ ":" ++ (stripTag obs.image).2) "unknown" s1)
          | some (.ok latest, s1) =>
            if imageDigest = latest.digest then
              .done (check cfg name ((stripTag obs.image).1 ++ ":" ++ (stripTag obs.image).2) "yes" s1)
            else if (stripTag obs.image).2 = "latest" then
              .done (check cfg name ((stripTag obs.image).1 ++ ":" ++ (stripTag obs.image).2) "no" s1)
            else
              afterLatest cfg net fuel name (stripTag obs.image).1 (stripTag obs.image).2 imageDigest (mainRegistry obs.image) obs.os obs.architecture latest s1
        else
          afterLatest cfg net fuel name (stripTag obs.image).1 (stripTag obs.image).2 imageDigest (mainRegistry obs.image) obs.os obs.architecture emptyImageInfo s

/-- Main's loop over the enumerated containers: process them in order,
threading the state; a crash or a non-terminating lookup aborts the run. -/
def runAll (cfg : Config) (net : Net) (fuel : Nat) : List ContainerObs → RunState → Option RunState
  | [], s => some s
  | c :: cs, s =>
    match processContainer cfg net fuel c s with
    | .done s1 => runAll cfg net fuel cs s1
    | .crash => none
    | .spin => none

/-- Mirrors func main after flag parsing: a failed container enumeration
is fatal to the whole process (log.Fatal); otherwise every enumerated
container is processed in order. -/
def mainModel (cfg : Config) (net : Net) (fuel : Nat) (enum : Except String (List ContainerObs)) (s : RunState) : Option RunState :=
  match enum with
  | .error _ => none
  | .ok cs => runAll cfg net fuel cs s

/-- The empty initial run state: cache initialized empty in main. -/
def initState : RunState := ⟨[], [], [], []⟩

/-- Concrete data used by the closed witness and counterexample theorems
below.  Configurations: no flags, and a GHCR token without output path. -/
def cfgNone : Config := ⟨"", ""⟩

/-- A configuration carrying a GHCR bearer token. -/
def cfgTok : Config := ⟨"token123", ""⟩

/-- A single-platform Docker Hub info value. -/
def infoD : ImageInfo := ⟨"sha256:D", [⟨"sha256:D", "linux", "amd64"⟩], []⟩

/-- A network on which every Docker Hub tag resolves to infoD. -/
def netYes : Net :=
  { dockerHub := fun _ _ _ => .ok ⟨"sha256:D", some [⟨"sha256:D", "linux", "amd64"⟩]⟩
    ghcr := fun _ _ _ => .netError }

/-- A container whose recorded digest equals the latest digest on netYes. -/
def obsRedis : ContainerObs := ⟨["/r"], "redis:7", ["redis@sha256:D"], "linux", "amd64"⟩

/-- The state after resolving redis latest on netYes from the empty state. -/
def sRedis1 : RunState := ⟨[("redis:latest", infoD)], [("redis", "latest")], [], []⟩

/-- The state after the whole redis container was processed on netYes. -/
def sRedisDone : RunState := ⟨[("redis:latest", infoD)], [("redis", "latest")], [⟨"/r", "redis:7", "yes"⟩], []⟩

/-- A network on which every request fails at the transport level. -/
def netErrAll : Net := { dockerHub := fun _ _ _ => .netError, ghcr := fun _ _ _ => .netError }

/-- The state after one failed nginx latest lookup on netErrAll. -/
def stErrA : RunState := ⟨[], [("nginx", "latest")], [], []⟩

/-- The state after two failed nginx latest lookups on netErrAll. -/
def stErrB : RunState := ⟨[], [("nginx", "latest"), ("nginx", "latest")], [], []⟩

/-- Latest-tag info with one amd64 platform entry (non-empty digest). -/
def latC2 : ImageInfo := ⟨"sha256:LAT", [⟨"sha256:x", "linux", "amd64"⟩], []⟩

/-- Current-tag info whose only amd64 platform entry has an empty digest. -/
def curC2 : ImageInfo := ⟨"sha256:CUR", [⟨"", "linux", "amd64"⟩], []⟩

/-- A Docker Hub network serving latC2 for latest and curC2 otherwise. -/
def netC2 : Net :=
  { dockerHub := fun _ _ tag =>
      if tag = "latest" then .ok ⟨"sha256:LAT", some [⟨"sha256:x", "linux", "amd64"⟩]⟩
      else .ok ⟨"sha256:CUR", some [⟨"", "linux", "amd64"⟩]⟩
    ghcr := fun _ _ _ => .netError }

/-- A docker.io container with tag v1 and a recorded digest matching
neither side. -/
def obsC2 : ContainerObs := ⟨["/c"], "app:v1", ["app@sha256:REC"], "linux", "amd64"⟩

/-- The final state of processing obsC2 on netC2. -/
def stC2 : RunState :=
  ⟨[("app:v1", curC2), ("app:latest", latC2)],
   [("app", "latest"), ("app", "v1")],
   [⟨"/c", "app:v1", "unknown"⟩], []⟩

/-- Latest-tag info for the platform-mismatch witness scenario. -/
def latW2 : ImageInfo := ⟨"sha256:LAT", [⟨"sha256:ld", "linux", "amd64"⟩], []⟩

/-- Current-tag info for the platform-mismatch witness scenario. -/
def curW2 : ImageInfo := ⟨"sha256:v", [⟨"sha256:cd", "linux", "amd64"⟩], []⟩

/-- A Docker Hub network serving latW2 for latest and curW2 otherwise. -/
def netW2 : Net :=
  { dockerHub := fun _ _ tag =>
      if tag = "latest" then .ok ⟨"sha256:LAT", some [⟨"sha256:ld", "linux", "amd64"⟩]⟩
      else .ok ⟨"sha256:v", some [⟨"sha256:cd", "linux", "amd64"⟩]⟩
    ghcr := fun _ _ _ => .netError }

/-- The state after resolving app latest on netW2 from the empty state. -/
def sW2a : RunState := ⟨[("app:latest", latW2)], [("app", "latest")], [], []⟩

/-- The state after additionally resolving app v1 on netW2. -/
def sW2b : RunState := ⟨[("app:v1", curW2), ("app:latest", latW2)], [("app", "latest"), ("app", "v1")], [], []⟩

/-- A GHCR network whose first page has the wanted tag only on the second
version entry. -/
def netC3 : Net :=
  { dockerHub := fun _ _ _ => .netError
    ghcr := fun _ _ page =>
      if page = 1 then .ok [⟨"sha256:a", "u", ["other"]⟩, ⟨"sha256:b", "u", ["wanted"]⟩]
      else .ok [] }

/-- The state after the tag-scan lookup of the netC3 scenario. -/
def stC3 : RunState := ⟨[], [("ghcr.io/org/app", "wanted")], [], []⟩

/-- The info a digest-matched GHCR resolution of netC6 returns. -/
def infoC6 : ImageInfo := ⟨"sha256:GD", [], ["2024.7.3", "latest"]⟩

/-- A GHCR network whose only version entry carries the latest tag. -/
def netC6 : Net :=
  { dockerHub := fun _ _ _ => .netError
    ghcr := fun _ _ _ => .ok [⟨"sha256:GD", "u", ["2024.7.3", "latest"]⟩] }

/-- A ghcr.io container whose recorded digest matches the netC6 entry. -/
def obsC6 : ContainerObs := ⟨["/e"], "ghcr.io/esphome/esphome:2024.7.3", ["ghcr.io/esphome/esphome@sha256:GD"], "linux", "amd64"⟩

/-- The state after the obsC6 current-tag resolution on netC6. -/
def s1C6 : RunState := ⟨[("ghcr.io/esphome/esphome:2024.7.3", infoC6)], [("ghcr.io/esphome/esphome", "2024.7.3")], [], []⟩

/-- A container on an unsupported registry (gcr.io). -/
def obsGcr : ContainerObs := ⟨["/g"], "gcr.io/ns/app:1.0", ["gcr.io/ns/app@sha256:Z"], "linux", "amd64"⟩

/-- A container whose image inspection reported no repository digests. -/
def obsC9 : ContainerObs := ⟨["/c"], "nginx", [], "linux", "amd64"⟩

/-- A state whose cache already holds the redis latest key. -/
def stCacheHit : RunState := ⟨[("redis:latest", infoD)], [], [], []⟩

/-- check leaves the trace and the cache unchanged and appends exactly one
log line. -/
theorem check_logs (cfg : Config) (a b c : String) (s : RunState) :
    (check cfg a b c s).logs = s.logs ++ [⟨a, b, c⟩] ∧
    (check cfg a b c s).trace = s.trace ∧
    (check cfg a b c s).cache = s.cache := by
  unfold check
  split <;> simp

/-- State evolution of the GHCR page loop: the logs and checkResults are
untouched, every trace entry added carries the looked-up tag, and the
cache either gains exactly the looked-up key bound to the returned info
or is unchanged. -/
theorem ghcrLoop_state (net : Net) (nspace name image tag digest : String) :
    ∀ fuel page s res s1, ghcrLoop net nspace name image tag digest fuel page s = some (res, s1) →
      s1.logs = s.logs ∧ s1.checkResults = s.checkResults ∧
      (∃ l, s1.trace = s.trace ++ l ∧ ∀ e ∈ l, e.2 = tag) ∧
      ((∃ info, res = .ok info ∧ s1.cache = (image ++ ":" ++ tag, info) :: s.cache) ∨ s1.cache = s.cache) := by
  intro fuel
  induction fuel with
  | zero => intro page s res s1 h; simp [ghcrLoop] at h
  | succ n ih =>
    intro page s res s1 h
    rw [ghcrLoop] at h
    split at h
    · injection h with h
      injection h with h1 h2
      subst h1; subst h2
      exact ⟨rfl, rfl, ⟨[(image, tag)], rfl, by simp⟩, Or.inr rfl⟩
    · injection h with h
      injection h with h1 h2
      subst h1; subst h2
      exact ⟨rfl, rfl, ⟨[(image, tag)], rfl, by simp⟩, Or.inr rfl⟩
    · injection h with h
      injection h with h1 h2
      subst h1; subst h2
      exact ⟨rfl, rfl, ⟨[(image, tag)], rfl, by simp⟩, Or.inr rfl⟩
    · split at h
      · injection h with h
        injection h with h1 h2
        subst h1; subst h2
        exact ⟨rfl, rfl, ⟨[(image, tag)], rfl, by simp⟩, Or.inr rfl⟩
      · split at h
        · injection h with h
          injection h with h1 h2
          subst h1; subst h2
          exact ⟨rfl, rfl, ⟨[(image, tag)], rfl, by simp⟩, Or.inl ⟨_, rfl, rfl⟩⟩
        · injection h with h
          injection h with h1 h2
          subst h1; subst h2
          exact ⟨rfl, rfl, ⟨[(image, tag)], rfl, by simp⟩, Or.inr rfl⟩
        · obtain ⟨hl, hc, ⟨l, hT, hA⟩, hcache⟩ := ih (page + 1) _ res s1 h
          refine ⟨hl, hc, ⟨(image, tag) :: l, by simpa using hT, ?_⟩, ?_⟩
          · intro e he
            rw [List.mem_cons] at he
            rcases he with he | he
            · rw [he]
            · exact hA e he
          · simpa using hcache

/-- State evolution of one resolver call: logs and checkResults are never
touched, every trace entry added carries the looked-up tag, and the cache
either gains exactly the looked-up key bound to the returned info or is
unchanged. -/
theorem GetRemoteDockerInfo_state (cfg : Config) (net : Net) (fuel : Nat) (image tag digest : String) (s : RunState) (res : Except DockerErr ImageInfo) (s1 : RunState)
    (h : GetRemoteDockerInfo cfg net fuel image tag digest s = some (res, s1)) :
    s1.logs = s.logs ∧ s1.checkResults = s.checkResults ∧
    (∃ l, s1.trace = s.trace ++ l ∧ ∀ e ∈ l, e.2 = tag) ∧
    ((∃ info, res = .ok info ∧ s1.cache = (image ++ ":" ++ tag, info) :: s.cache) ∨ s1.cache = s.cache) := by
  rw [GetRemoteDockerInfo] at h
  split at h
  · injection h with h
    injection h with h1 h2
    subst h1; subst h2
    exact ⟨rfl, rfl, ⟨[], by simp, by simp⟩, Or.inr rfl⟩
  · split at h
    · injection h with h
      rw [dockerHubFetch] at h
      split at h
      · injection h with h1 h2
        subst h1; subst h2
        exact ⟨rfl, rfl, ⟨[(image, tag)], rfl, by simp⟩, Or.inr rfl⟩
      · injection h with h1 h2
        subst h1; subst h2
        exact ⟨rfl, rfl, ⟨[(image, tag)], rfl, by simp⟩, Or.inr rfl⟩
      · injection h with h1 h2
        subst h1; subst h2
        exact ⟨rfl, rfl, ⟨[(image, tag)], rfl, by simp⟩, Or.inr rfl⟩
      · split at h
        · injection h with h1 h2
          subst h1; subst h2
          exact ⟨rfl, rfl, ⟨[(image, tag)], rfl, by simp⟩, Or.inr rfl⟩
        · split at h
          · injection h with h1 h2
            subst h1; subst h2
            exact ⟨rfl, rfl, ⟨[(image, tag)], rfl, by simp⟩, Or.inr rfl⟩
          · injection h with h1 h2
            subst h1; subst h2
            exact ⟨rfl, rfl, ⟨[(image, tag)], rfl, by simp⟩, Or.inl ⟨_, rfl, rfl⟩⟩
    · split at h
      · split at h
        · injection h with h
          injection h with h1 h2
          subst h1; subst h2
          exact ⟨rfl, rfl, ⟨[], by simp, by simp⟩, Or.inr rfl⟩
        · exact ghcrLoop_state net _ _ image tag digest fuel 1 s res s1 h
      · injection h with h
        injection h with h1 h2
        subst h1; subst h2
        exact ⟨rfl, rfl, ⟨[], by simp, by simp⟩, Or.inr rfl⟩

/-- After a successful resolver call, the looked-up key is either bound in
the cache to exactly the returned info, or absent. -/
theorem resolve_ok_lookup (cfg : Config) (net : Net) (fuel : Nat) (image tag digest : String) (s : RunState) (info : ImageInfo) (s1 : RunState)
    (h : GetRemoteDockerInfo cfg net fuel image tag digest s = some (.ok info, s1)) :
    s1.cache.lookup (image ++ ":" ++ tag) = some info ∨
      s1.cache.lookup (image ++ ":" ++ tag) = none := by
  have hmain := GetRemoteDockerInfo_state cfg net fuel image tag digest s (.ok info) s1 h
  rcases hmain.2.2.2 with ⟨info2, hinfo2, hcache⟩ | hcache
  · injection hinfo2 with hinfo2
    subst hinfo2
    left
    rw [hcache]
    simp [List.lookup]
  · rw [GetRemoteDockerInfo] at h
    split at h
    · rename_i v hv
      injection h with h
      injection h with h1 h2
      subst h2
      left
      injection h1 with h1
      subst h1
      exact hv
    · rename_i hmiss
      rw [hcache]
      right
      exact hmiss

/-- With a non-empty expected digest the page scan never takes the early
empty-ImageInfo return. -/
theorem ghcrScan_ne_emptyOk (digest tag : String) (hdg : digest ≠ "") :
    ∀ vs, ghcrScan digest tag vs ≠ .emptyOk := by
  intro vs
  induction vs with
  | nil => simp [ghcrScan]
  | cons v rest ih =>
    rw [ghcrScan]
    by_cases hv : v.digest = digest
    · rw [if_pos ⟨hdg, hv⟩]
      simp
    · rw [if_neg (fun hc => hv hc.2), if_neg hdg]
      exact ih

/-- With a non-empty expected digest, a found result of the page scan comes
from an entry of the page whose digest is exactly the expected one, and it
carries that entry's tag list. -/
theorem ghcrScan_found_mem (digest tag : String) (hdg : digest ≠ "") :
    ∀ vs info, ghcrScan digest tag vs = .found info →
      ∃ v ∈ vs, v.digest = digest ∧ info = ⟨digest, [], v.tags⟩ := by
  intro vs
  induction vs with
  | nil => intro info h; simp [ghcrScan] at h
  | cons v rest ih =>
    intro info h
    rw [ghcrScan] at h
    by_cases hv : v.digest = digest
    · rw [if_pos ⟨hdg, hv⟩] at h
      injection h with h
      exact ⟨v, List.mem_cons_self v rest, hv, by rw [← h, hv]⟩
    · rw [if_neg (fun hc => hv hc.2), if_neg hdg] at h
      obtain ⟨w, hw, hwd, hwi⟩ := ih info h
      exact ⟨w, List.mem_cons_of_mem v hw, hwd, hwi⟩

/-- A successful GHCR page-loop resolution with a non-empty expected digest
returns the digest and tag list of an entry, on one of the fetched pages,
whose digest equals the expected one. -/
theorem ghcrLoop_ok_match (net : Net) (nspace name image tag digest : String) (hdg : digest ≠ "") :
    ∀ fuel page s info s1, ghcrLoop net nspace name image tag digest fuel page s = some (.ok info, s1) →
      ∃ p v, v ∈ ghcrPage net nspace name p ∧ v.digest = digest ∧ info = ⟨digest, [], v.tags⟩ := by
  intro fuel
  induction fuel with
  | zero => intro page s info s1 h; simp [ghcrLoop] at h
  | succ n ih =>
    intro page s info s1 h
    rw [ghcrLoop] at h
    split at h
    · simp at h
    · simp at h
    · simp at h
    · split at h
      · simp at h
      · split at h
        · rename_i vList hresp hlen hscrut info0 hscan
          injection h with h
          injection h with h1 h2
          injection h1 with h1
          subst h1
          obtain ⟨v, hv, hvd, hvi⟩ := ghcrScan_found_mem digest tag hdg vList info0 hscan
          refine ⟨page, v, ?_, hvd, hvi⟩
          rw [ghcrPage, hresp]
          exact hv
        · rename_i vList hresp hlen hscrut hscan
          exact absurd hscan (ghcrScan_ne_emptyOk digest tag hdg vList)
        · exact ih (page + 1) _ info s1 h

/-- A successful resolver call for a ghcr.io image with a non-empty
expected digest and a cache miss returns the digest and tag list of some
fetched version entry whose digest equals the expected one. -/
theorem resolve_ghcr_ok_match (cfg : Config) (net : Net) (fuel : Nat) (image tag digest : String) (s : RunState) (info : ImageInfo) (s1 : RunState)
    (hmiss : s.cache.lookup (image ++ ":" ++ tag) = none)
    (hparse : (parseImageRef image).1 = "ghcr.io")
    (hdg : digest ≠ "")
    (h : GetRemoteDockerInfo cfg net fuel image tag digest s = some (.ok info, s1)) :
    ∃ p v, v ∈ ghcrPage net (parseImageRef image).2.1 (parseImageRef image).2.2 p ∧
      v.digest = digest ∧ info = ⟨digest, [], v.tags⟩ := by
  rw [GetRemoteDockerInfo] at h
  split at h
  · rename_i v hv
    rw [hmiss] at hv
    exact absurd hv (by simp)
  · rw [hparse] at h
    rw [if_neg (by decide)] at h
    rw [if_pos rfl] at h
    split at h
    · simp at h
    · exact ghcrLoop_ok_match net _ _ image tag digest hdg fuel 1 s info s1 h

/-- The log line appended by check after a resolver call extends the logs
the run had before that call. -/
theorem check_logs_after_resolve (cfg : Config) (net : Net) (fuel : Nat) (a b c img tagq dq : String) (s sx : RunState) (res : Except DockerErr ImageInfo)
    (hres : GetRemoteDockerInfo cfg net fuel img tagq dq s = some (res, sx)) :
    (check cfg a b c sx).logs = s.logs ++ [⟨a, b, c⟩] := by
  have hlogs := (GetRemoteDockerInfo_state _ _ _ _ _ _ _ _ _ hres).1
  rw [(check_logs cfg a b c sx).1, hlogs]

/-- Whenever afterLatest completes normally it has appended exactly one
log line, whose verdict is yes, no or unknown. -/
theorem afterLatest_done (cfg : Config) (net : Net) (fuel : Nat) (name imageName imageTag imageDigest registry osv arch : String) (latest : ImageInfo) (s s1 : RunState)
    (h : afterLatest cfg net fuel name imageName imageTag imageDigest registry osv arch latest s = .done s1) :
    ∃ r : CheckResult, s1.logs = s.logs ++ [r] ∧
      (r.isLatest = "yes" ∨ r.isLatest = "no" ∨ r.isLatest = "unknown") := by
  rw [afterLatest] at h
  split at h
  · simp at h
  · rename_i sx hres
    injection h with h
    exact ⟨⟨name, imageName ++ ":" ++ imageTag, "unknown"⟩,
      by rw [← h]; exact check_logs_after_resolve cfg net fuel _ _ _ _ _ _ s sx _ hres, by simp⟩
  · rename_i current sx hres
    split at h
    · split at h
      · injection h with h
        exact ⟨⟨name, imageName ++ ":" ++ imageTag, "yes"⟩,
          by rw [← h]; exact check_logs_after_resolve cfg net fuel _ _ _ _ _ _ s sx _ hres, by simp⟩
      · injection h with h
        exact ⟨⟨name, imageName ++ ":" ++ imageTag, "no"⟩,
          by rw [← h]; exact check_logs_after_resolve cfg net fuel _ _ _ _ _ _ s sx _ hres, by simp⟩
    · split at h
      · split at h
        · injection h with h
          exact ⟨⟨name, imageName ++ ":" ++ imageTag, "unknown"⟩,
            by rw [← h]; exact check_logs_after_resolve cfg net fuel _ _ _ _ _ _ s sx _ hres, by simp⟩
        · split at h
          · injection h with h
            exact ⟨⟨name, imageName ++ ":" ++ imageTag, "unknown"⟩,
              by rw [← h]; exact check_logs_after_resolve cfg net fuel _ _ _ _ _ _ s sx _ hres, by simp⟩
          · split at h
            · injection h with h
              exact ⟨⟨name, imageName ++ ":" ++ imageTag, "no"⟩,
                by rw [← h]; exact check_logs_after_resolve cfg net fuel _ _ _ _ _ _ s sx _ hres, by simp⟩
            · injection h with h
              exact ⟨⟨name, imageName ++ ":" ++ imageTag, "yes"⟩,
                by rw [← h]; exact check_logs_after_resolve cfg net fuel _ _ _ _ _ _ s sx _ hres, by simp⟩
      · injection h with h
        exact ⟨⟨name, imageName ++ ":" ++ imageTag, "unknown"⟩,
          by rw [← h]; exact check_logs_after_resolve cfg net fuel _ _ _ _ _ _ s sx _ hres, by simp⟩

/-- Whenever processContainer completes normally it has appended exactly
one log line, whose verdict is yes, no or unknown. -/
theorem processContainer_done (cfg : Config) (net : Net) (fuel : Nat) (obs : ContainerObs) (s s1 : RunState)
    (h : processContainer cfg net fuel obs s = .done s1) :
    ∃ r : CheckResult, s1.logs = s.logs ++ [r] ∧
      (r.isLatest = "yes" ∨ r.isLatest = "no" ∨ r.isLatest = "unknown") := by
  rw [processContainer] at h
  split at h
  · simp at h
  · split at h
    · simp at h
    · split at h
      · simp at h
      · split at h
        · split at h
          · simp at h
          · rename_i sx hres
            injection h with h
            exact ⟨⟨_, (stripTag obs.image).1 ++ ":" ++ (stripTag obs.image).2, "unknown"⟩,
              by rw [← h]; exact check_logs_after_resolve cfg net fuel _ _ _ _ _ _ s sx _ hres, by simp⟩
          · rename_i latest sx hres
            split at h
            · injection h with h
              exact ⟨⟨_, (stripTag obs.image).1 ++ ":" ++ (stripTag obs.image).2, "yes"⟩,
                by rw [← h]; exact check_logs_after_resolve cfg net fuel _ _ _ _ _ _ s sx _ hres, by simp⟩
            · split at h
              · injection h with h
                exact ⟨⟨_, (stripTag obs.image).1 ++ ":" ++ (stripTag obs.image).2, "no"⟩,
                  by rw [← h]; exact check_logs_after_resolve cfg net fuel _ _ _ _ _ _ s sx _ hres, by simp⟩
              · have hst := (GetRemoteDockerInfo_state _ _ _ _ _ _ _ _ _ hres).1
                obtain ⟨r, hr1, hr2⟩ := afterLatest_done _ _ _ _ _ _ _ _ _ _ _ _ _ h
                exact ⟨r, by rw [hr1, hst], hr2⟩
        · exact afterLatest_done _ _ _ _ _ _ _ _ _ _ _ _ _ h

/-- Claim C10 (confirmed): when the repository:tag key is already present
in the RunCache, the resolver returns the cached ImageInfo with the state
unchanged (so no network call and no trace entry), and this for every
expectedDigest argument - the digest is never consulted on the cache-hit
path, even when it differs from the digest that populated the entry. -/
theorem c10_cache_hit_ignores_digest (cfg : Config) (net : Net) (fuel : Nat) (image tag digest : String) (s : RunState) (v : ImageInfo)
    (h : s.cache.lookup (image ++ ":" ++ tag) = some v) :
    GetRemoteDockerInfo cfg net fuel image tag digest s = some (.ok v, s) := by
  rw [GetRemoteDockerInfo, h]

/-- Witness for C10: the cached redis latest entry has digest sha256:D,
yet a lookup passing the different digest sha256:OTHER still returns
the cached value unchanged, on a network where every request would fail. -/
theorem c10_cache_hit_ignores_digest_witness :
    GetRemoteDockerInfo cfgNone netErrAll 1 "redis" "latest" "sha256:OTHER" stCacheHit = some (.ok infoD, stCacheHit) :=
  c10_cache_hit_ignores_digest cfgNone netErrAll 1 "redis" "latest" "sha256:OTHER" stCacheHit infoD (by decide)

/-- Counterexample to claim C5 as stated: two successive resolutions of
the same repository:tag key (nginx, latest) on a network that fails at
the transport level issue one HTTP request each - two network calls in
total, not at most one - because a failed resolution writes nothing into
the cache.  (The two calls do return equal values.) -/
theorem c5_counterexample :
    GetRemoteDockerInfo cfgNone netErrAll 1 "nginx" "latest" "" initState = some (.error (.netError "nginx"), stErrA) ∧
    GetRemoteDockerInfo cfgNone netErrAll 1 "nginx" "latest" "" stErrA = some (.error (.netError "nginx"), stErrB) ∧
    initState.trace.length = 0 ∧ stErrB.trace.length = 2 := by
  exact ⟨by decide, by decide, by decide, by decide⟩

/-- Claim C5 (amended): when the first resolution succeeds and its key is
in the cache afterwards, the cached value is exactly the returned one, and
a second resolution of the same key - with any digest and any fuel -
returns the same value with the state unchanged, issuing no network call. -/
theorem c5_cached_second_lookup (cfg : Config) (net : Net) (fuel fuel2 : Nat) (image tag d1 d2 : String) (info : ImageInfo) (s s1 : RunState) (w : ImageInfo)
    (h1 : GetRemoteDockerInfo cfg net fuel image tag d1 s = some (.ok info, s1))
    (h2 : s1.cache.lookup (image ++ ":" ++ tag) = some w) :
    w = info ∧ GetRemoteDockerInfo cfg net fuel2 image tag d2 s1 = some (.ok info, s1) := by
  rcases resolve_ok_lookup cfg net fuel image tag d1 s info s1 h1 with hl | hl
  · rw [h2] at hl
    injection hl with hl
    subst hl
    exact ⟨rfl, by rw [GetRemoteDockerInfo, h2]⟩
  · rw [hl] at h2
    exact absurd h2 (by simp)

/-- Witness for the amended C5: after a successful docker.io resolution of
redis latest, a second lookup with a different digest returns the same
info with no further trace entry. -/
theorem c5_cached_second_lookup_witness :
    infoD = infoD ∧ GetRemoteDockerInfo cfgNone netYes 1 "redis" "latest" "sha256:Q" sRedis1 = some (.ok infoD, sRedis1) :=
  c5_cached_second_lookup cfgNone netYes 1 1 "redis" "latest" "" "sha256:Q" infoD initState sRedis1 infoD (by decide) (by decide)

/-- Counterexample to claim C4 as stated: the one-slash image string
user/repo parses with namespace user, not library (the second-to-last
segment is taken as the namespace as soon as there are two segments). -/
theorem c4_counterexample :
    parseImageRef "user/repo" = ("docker.io", "user", "repo") ∧ ("user" : String) ≠ "library" := by
  exact ⟨by decide, by decide⟩

/-- The number of segments produced by the split is the separator count
plus one. -/
theorem splitCharAux_length (sep : Char) :
    ∀ cs acc, (splitCharAux sep cs acc).length = cs.countP (fun c => c == sep) + 1 := by
  intro cs
  induction cs with
  | nil => intro acc; simp [splitCharAux]
  | cons c cs ih =>
    intro acc
    rw [splitCharAux]
    by_cases hc : c = sep
    · rw [if_pos hc]
      simp [List.countP_cons, hc, ih]
    · rw [if_neg hc]
      simp [List.countP_cons, hc, ih]

/-- goSplit returns one more segment than there are separators. -/
theorem goSplit_length (s : String) (sep : Char) :
    (goSplit s sep).length = s.data.countP (fun c => c == sep) + 1 := by
  rw [goSplit, List.length_map]
  exact splitCharAux_length sep s.data []

/-- Claim C4 (amended): with at most one slash the registry is docker.io
and the repository name is the last segment, but the namespace is library
only in the zero-slash case; with exactly one slash the namespace is the
first segment. -/
theorem c4_low_slash_parse (image : String)
    (h : image.data.countP (fun c => c == '/') ≤ 1) :
    (parseImageRef image).1 = "docker.io" ∧
    (parseImageRef image).2.2 = (goSplit image '/').getD ((goSplit image '/').length - 1) "" ∧
    (image.data.countP (fun c => c == '/') = 0 → (parseImageRef image).2.1 = "library") ∧
    (image.data.countP (fun c => c == '/') = 1 → (parseImageRef image).2.1 = (goSplit image '/').getD 0 "") := by
  have hlen : (goSplit image '/').length ≤ 2 := by rw [goSplit_length]; omega
  refine ⟨?_, ?_, ?_, ?_⟩
  · simp only [parseImageRef]
    rw [if_neg (by omega)]
  · simp only [parseImageRef]
  · intro h0
    have h1 : (goSplit image '/').length = 1 := by rw [goSplit_length, h0]
    simp only [parseImageRef]
    rw [if_neg (by omega)]
  · intro h0
    have h1 : (goSplit image '/').length = 2 := by rw [goSplit_length, h0]
    simp only [parseImageRef]
    rw [if_pos (by omega), h1]

/-- Witness for the amended C4: the zero-slash and one-slash cases at
concrete inputs. -/
theorem c4_low_slash_parse_witness :
    (parseImageRef "user/repo").1 = "docker.io" ∧
    (parseImageRef "user/repo").2.2 = (goSplit "user/repo" '/').getD ((goSplit "user/repo" '/').length - 1) "" ∧
    (("user/repo".data.countP (fun c => c == '/') = 0) → (parseImageRef "user/repo").2.1 = "library") ∧
    (("user/repo".data.countP (fun c => c == '/') = 1) → (parseImageRef "user/repo").2.1 = (goSplit "user/repo" '/').getD 0 "") :=
  c4_low_slash_parse "user/repo" (by decide)

/-- Counterexample to claim C3 as stated: with no expected digest the
GHCR resolver returns the empty ImageInfo (and no error) although the
requested tag does occur in a later fetched entry - only the first entry
of the page is ever inspected. -/
theorem c3_counterexample :
    GetRemoteDockerInfo cfgTok netC3 2 "ghcr.io/org/app" "wanted" "" initState = some (.ok emptyImageInfo, stC3) ∧
    (⟨"sha256:b", "u", ["wanted"]⟩ : GHCRVersion) ∈ ghcrPage netC3 "org" "app" 1 ∧
    "wanted" ∈ (⟨"sha256:b", "u", ["wanted"]⟩ : GHCRVersion).tags := by
  exact ⟨by decide, by decide, by decide⟩

/-- Claim C3 (amended): with no expected digest the resolver inspects only
the first entry of the first fetched page: if the requested tag is in that
entry's tag list it returns that entry's digest and tags (and caches them),
otherwise it immediately returns an empty ImageInfo with no error and no
cache write - regardless of any later entries. -/
theorem c3_first_entry_scan (cfg : Config) (net : Net) (fuel : Nat) (image tag : String) (s : RunState) (v : GHCRVersion) (vs : List GHCRVersion)
    (hmiss : s.cache.lookup (image ++ ":" ++ tag) = none)
    (hparse : (parseImageRef image).1 = "ghcr.io")
    (htok : cfg.ghcrToken ≠ "")
    (hpage : net.ghcr (parseImageRef image).2.1 (parseImageRef image).2.2 1 = .ok (v :: vs)) :
    (v.tags.contains tag = true →
       GetRemoteDockerInfo cfg net (fuel + 1) image tag "" s =
         some (.ok ⟨v.digest, [], v.tags⟩,
           { s with cache := (image ++ ":" ++ tag, (⟨v.digest, [], v.tags⟩ : ImageInfo)) :: s.cache,
                    trace := s.trace ++ [(image, tag)] })) ∧
    (v.tags.contains tag = false →
       GetRemoteDockerInfo cfg net (fuel + 1) image tag "" s =
         some (.ok emptyImageInfo, { s with trace := s.trace ++ [(image, tag)] })) := by
  constructor
  · intro hc
    simp only [GetRemoteDockerInfo, hmiss, hparse]
    rw [if_pos trivial, if_neg htok, ghcrLoop]
    simp only [hpage]
    rw [if_neg (by simp)]
    rw [ghcrScan, if_neg (by simp), if_pos rfl, if_pos hc]
    rw [if_neg (by simp)]
  · intro hc
    simp only [GetRemoteDockerInfo, hmiss, hparse]
    rw [if_pos trivial, if_neg htok, ghcrLoop]
    simp only [hpage]
    rw [if_neg (by simp)]
    rw [ghcrScan, if_neg (by simp), if_pos rfl]
    have hc2 : ¬ tag ∈ v.tags := by simpa using hc
    simp [hc2]

/-- Witness for the amended C3: on netC3 the first entry does not carry
the wanted tag, so the resolver returns the empty ImageInfo without error
even though the second entry carries it. -/
theorem c3_first_entry_scan_witness :
    GetRemoteDockerInfo cfgTok netC3 (1 + 1) "ghcr.io/org/app" "wanted" "" initState =
      some (.ok emptyImageInfo, { initState with trace := initState.trace ++ [("ghcr.io/org/app", "wanted")] }) :=
  (c3_first_entry_scan cfgTok netC3 1 "ghcr.io/org/app" "wanted" initState ⟨"sha256:a", "u", ["other"]⟩ [⟨"sha256:b", "u", ["wanted"]⟩] (by decide) (by decide) (by decide) (by decide)).2 (by decide)

/-- Claim C9 (the code crashes where the claim says it must not): a
container observation with an empty repository-digest list makes
processContainer hit an out-of-range index (RepoDigests at position 0),
which panics and aborts the whole run, including every later container. -/
theorem c9_crash_on_empty_repo_digests :
    processContainer cfgNone netErrAll 1 obsC9 initState = .crash ∧
    runAll cfgNone netErrAll 1 [obsC9, obsRedis] initState = none ∧
    obsC9.repoDigests = [] := by
  exact ⟨by decide, by decide, by decide⟩

/-- Claim C1 (confirmed): for a docker.io container whose latest-tag
resolution succeeded, a recorded digest equal to the latest info's digest
gives verdict yes whatever the tag is; otherwise a container tag latest
gives verdict no; and in both cases the only requests issued while
processing the container are latest-tag lookups - the container's own tag
is never resolved on these paths. -/
theorem c1_docker_latest_short_circuit
    (cfg : Config) (net : Net) (fuel : Nat) (obs : ContainerObs) (s : RunState)
    (nm rd dg : String) (L : ImageInfo) (s1 : RunState)
    (hn : obs.names.get? 0 = some nm)
    (hr : obs.repoDigests.get? 0 = some rd)
    (hd : (goSplit rd '@').get? 1 = some dg)
    (hreg : mainRegistry obs.image = "docker.io")
    (hres : GetRemoteDockerInfo cfg net fuel (stripTag obs.image).1 "latest" "" s = some (.ok L, s1)) :
    (dg = L.digest →
      processContainer cfg net fuel obs s =
        .done (check cfg nm ((stripTag obs.image).1 ++ ":" ++ (stripTag obs.image).2) "yes" s1)) ∧
    (dg ≠ L.digest → (stripTag obs.image).2 = "latest" →
      processContainer cfg net fuel obs s =
        .done (check cfg nm ((stripTag obs.image).1 ++ ":" ++ (stripTag obs.image).2) "no" s1)) ∧
    (∃ l, s1.trace = s.trace ++ l ∧ ∀ e ∈ l, e.2 = "latest") := by
  refine ⟨?_, ?_, ?_⟩
  · intro hdig
    simp only [processContainer, hn, hr, hd, hreg, hres]
    simp [hdig]
  · intro hdig htag
    simp only [processContainer, hn, hr, hd, hreg, hres]
    simp [hdig, htag]
  · exact (GetRemoteDockerInfo_state _ _ _ _ _ _ _ _ _ hres).2.2.1

/-- Witness for C1: the redis container with recorded digest equal to the
latest digest gets verdict yes although its tag is 7, with only the
latest-tag request on the trace. -/
theorem c1_docker_latest_short_circuit_witness :
    processContainer cfgNone netYes 1 obsRedis initState =
      .done (check cfgNone "/r" ((stripTag obsRedis.image).1 ++ ":" ++ (stripTag obsRedis.image).2) "yes" sRedis1) :=
  (c1_docker_latest_short_circuit cfgNone netYes 1 obsRedis initState "/r" "redis@sha256:D" "sha256:D" infoD sRedis1
    (by decide) (by decide) (by decide) (by decide) (by decide)).1 (by decide)

/-- Claim C6 (confirmed): for a ghcr.io container (fresh lookup, non-empty
recorded digest) whose current-tag resolution succeeds, the verdict is yes
precisely when latest occurs in the tag list the resolver returned, and
that tag list is the one of a fetched version entry whose digest equals
the observation's recorded digest. -/
theorem c6_ghcr_verdict_latest_tag
    (cfg : Config) (net : Net) (fuel : Nat) (obs : ContainerObs) (s : RunState)
    (nm rd dg : String) (cur : ImageInfo) (s1 : RunState)
    (hn : obs.names.get? 0 = some nm)
    (hr : obs.repoDigests.get? 0 = some rd)
    (hd : (goSplit rd '@').get? 1 = some dg)
    (hreg : mainRegistry obs.image = "ghcr.io")
    (hparse : (parseImageRef (stripTag obs.image).1).1 = "ghcr.io")
    (hmiss : s.cache.lookup ((stripTag obs.image).1 ++ ":" ++ (stripTag obs.image).2) = none)
    (hdg : dg ≠ "")
    (hres : GetRemoteDockerInfo cfg net fuel (stripTag obs.image).1 (stripTag obs.image).2 dg s = some (.ok cur, s1)) :
    processContainer cfg net fuel obs s =
      .done (check cfg nm ((stripTag obs.image).1 ++ ":" ++ (stripTag obs.image).2)
        (if cur.tags.contains "latest" then "yes" else "no") s1) ∧
    ∃ p v, v ∈ ghcrPage net (parseImageRef (stripTag obs.image).1).2.1 (parseImageRef (stripTag obs.image).1).2.2 p ∧
      v.digest = dg ∧ cur = ⟨dg, [], v.tags⟩ := by
  constructor
  · simp only [processContainer, hn, hr, hd, hreg]
    rw [if_neg (by decide)]
    rw [afterLatest]
    simp only [hres]
    rw [if_pos trivial]
    split <;> rfl
  · exact resolve_ghcr_ok_match cfg net fuel _ _ dg s cur s1 hmiss hparse hdg hres

/-- Witness for C6: the esphome container's recorded digest matches the
only netC6 version entry, whose tag list contains latest; the verdict
computes to yes. -/
theorem c6_ghcr_verdict_latest_tag_witness :
    processContainer cfgTok netC6 1 obsC6 initState =
      .done (check cfgTok "/e" ((stripTag obsC6.image).1 ++ ":" ++ (stripTag obsC6.image).2)
        (if infoC6.tags.contains "latest" then "yes" else "no") s1C6) ∧
    ∃ p v, v ∈ ghcrPage netC6 (parseImageRef (stripTag obsC6.image).1).2.1 (parseImageRef (stripTag obsC6.image).1).2.2 p ∧
      v.digest = "sha256:GD" ∧ infoC6 = ⟨"sha256:GD", [], v.tags⟩ :=
  c6_ghcr_verdict_latest_tag cfgTok netC6 1 obsC6 initState "/e" "ghcr.io/esphome/esphome@sha256:GD" "sha256:GD" infoC6 s1C6
    (by decide) (by decide) (by decide) (by decide) (by decide) (by decide) (by decide) (by decide)

/-- Counterexample to claim C2 as stated: recorded digest differs from the
latest digest, the tag is not latest, and both resolved infos carry a
platform entry matching the observation's os and architecture with
different digests - the claim then requires verdict no - yet the code
reports unknown, because the matching current entry's digest is the empty
string and the code treats an empty selected digest as no match. -/
theorem c2_counterexample :
    processContainer cfgNone netC2 1 obsC2 initState = .done stC2 ∧
    stC2.logs = [⟨"/c", "app:v1", "unknown"⟩] ∧
    (⟨"", "linux", "amd64"⟩ : MultiplePlatformImageInfo) ∈ curC2.multiplePlatformImageInfoList ∧
    (⟨"sha256:x", "linux", "amd64"⟩ : MultiplePlatformImageInfo) ∈ latC2.multiplePlatformImageInfoList ∧
    obsC2.os = "linux" ∧ obsC2.architecture = "amd64" ∧
    ("" : String) ≠ "sha256:x" ∧
    ("sha256:REC" : String) ≠ latC2.digest ∧ (stripTag obsC2.image).2 ≠ "latest" := by
  exact ⟨by decide, by decide, by decide, by decide, by decide, by decide, by decide, by decide, by decide⟩

/-- Claim C2 (amended): for a docker.io container past the latest-digest
and latest-tag short-circuits, with both resolutions successful, the
verdict is computed from the digest of the last platform entry matching
the observation's os and architecture on each side (empty string when
none matches): unknown when either selected digest is empty - even if a
matching entry exists but its digest is the empty string - and otherwise
yes exactly when the two selected digests are equal. -/
theorem c2_platform_comparison
    (cfg : Config) (net : Net) (fuel : Nat) (obs : ContainerObs) (s : RunState)
    (nm rd dg : String) (L C : ImageInfo) (s1 s2 : RunState)
    (hn : obs.names.get? 0 = some nm)
    (hr : obs.repoDigests.get? 0 = some rd)
    (hd : (goSplit rd '@').get? 1 = some dg)
    (hreg : mainRegistry obs.image = "docker.io")
    (hlat : GetRemoteDockerInfo cfg net fuel (stripTag obs.image).1 "latest" "" s = some (.ok L, s1))
    (hne : dg ≠ L.digest)
    (htag : (stripTag obs.image).2 ≠ "latest")
    (hcur : GetRemoteDockerInfo cfg net fuel (stripTag obs.image).1 (stripTag obs.image).2 dg s1 = some (.ok C, s2)) :
    ∃ verdict,
      processContainer cfg net fuel obs s =
        .done (check cfg nm ((stripTag obs.image).1 ++ ":" ++ (stripTag obs.image).2) verdict s2) ∧
      ((selectDigest C.multiplePlatformImageInfoList obs.os obs.architecture = "" ∨
          selectDigest L.multiplePlatformImageInfoList obs.os obs.architecture = "") → verdict = "unknown") ∧
      (selectDigest C.multiplePlatformImageInfoList obs.os obs.architecture ≠ "" →
       selectDigest L.multiplePlatformImageInfoList obs.os obs.architecture ≠ "" →
         verdict = if selectDigest C.multiplePlatformImageInfoList obs.os obs.architecture =
                      selectDigest L.multiplePlatformImageInfoList obs.os obs.architecture
                   then "yes" else "no") := by
  have hmain : processContainer cfg net fuel obs s =
      afterLatest cfg net fuel nm (stripTag obs.image).1 (stripTag obs.image).2 dg "docker.io" obs.os obs.architecture L s1 := by
    simp only [processContainer, hn, hr, hd, hreg, hlat]
    simp [hne, htag]
  by_cases hC : selectDigest C.multiplePlatformImageInfoList obs.os obs.architecture = ""
  · refine ⟨"unknown", ?_, fun _ => rfl, fun hc _ => absurd hC hc⟩
    rw [hmain, afterLatest]
    simp only [hcur]
    rw [if_pos trivial, if_pos hC, if_neg (by decide)]
  · by_cases hL : selectDigest L.multiplePlatformImageInfoList obs.os obs.architecture = ""
    · refine ⟨"unknown", ?_, fun _ => rfl, fun _ hl => absurd hL hl⟩
      rw [hmain, afterLatest]
      simp only [hcur]
      rw [if_pos trivial, if_neg hC, if_pos hL, if_neg (by decide)]
    · by_cases hEq : selectDigest C.multiplePlatformImageInfoList obs.os obs.architecture =
          selectDigest L.multiplePlatformImageInfoList obs.os obs.architecture
      · refine ⟨"yes", ?_, fun hor => (hor.elim (fun h => absurd h hC) (fun h => absurd h hL)), fun _ _ => by rw [if_pos hEq]⟩
        rw [hmain, afterLatest]
        simp only [hcur]
        rw [if_pos trivial, if_neg hC, if_neg hL, if_neg (not_not_intro hEq), if_neg (by decide)]
      · refine ⟨"no", ?_, fun hor => (hor.elim (fun h => absurd h hC) (fun h => absurd h hL)), fun _ _ => by rw [if_neg hEq]⟩
        rw [hmain, afterLatest]
        simp only [hcur]
        rw [if_pos trivial, if_neg hC, if_neg hL, if_pos hEq, if_neg (by decide)]

/-- Witness for the amended C2: the app v1 container on netW2, where both
selected digests are non-empty and different, so the comparison yields a
verdict (here computed through the theorem). -/
theorem c2_platform_comparison_witness :
    ∃ verdict,
      processContainer cfgNone netW2 1 obsC2 initState =
        .done (check cfgNone "/c" ((stripTag obsC2.image).1 ++ ":" ++ (stripTag obsC2.image).2) verdict sW2b) ∧
      ((selectDigest curW2.multiplePlatformImageInfoList obsC2.os obsC2.architecture = "" ∨
          selectDigest latW2.multiplePlatformImageInfoList obsC2.os obsC2.architecture = "") → verdict = "unknown") ∧
      (selectDigest curW2.multiplePlatformImageInfoList obsC2.os obsC2.architecture ≠ "" →
       selectDigest latW2.multiplePlatformImageInfoList obsC2.os obsC2.architecture ≠ "" →
         verdict = if selectDigest curW2.multiplePlatformImageInfoList obsC2.os obsC2.architecture =
                      selectDigest latW2.multiplePlatformImageInfoList obsC2.os obsC2.architecture
                   then "yes" else "no") :=
  c2_platform_comparison cfgNone netW2 1 obsC2 initState "/c" "app@sha256:REC" "sha256:REC" latW2 curW2 sW2a sW2b
    (by decide) (by decide) (by decide) (by decide) (by decide) (by decide) (by decide) (by decide)

/-- Claim C7 (confirmed): a run over a container list that completes
appends exactly one result per container to the output sequence, in
container-processing order, and every appended verdict is one of yes, no
and unknown. -/
theorem c7_one_result_per_container (cfg : Config) (net : Net) (fuel : Nat) :
    ∀ cs s s1, runAll cfg net fuel cs s = some s1 →
      ∃ rs, s1.logs = s.logs ++ rs ∧ rs.length = cs.length ∧
        ∀ r ∈ rs, r.isLatest = "yes" ∨ r.isLatest = "no" ∨ r.isLatest = "unknown" := by
  intro cs
  induction cs with
  | nil =>
    intro s s1 h
    rw [runAll] at h
    injection h with h
    subst h
    exact ⟨[], by simp, rfl, by simp⟩
  | cons c cs ih =>
    intro s s1 h
    rw [runAll] at h
    split at h
    · rename_i sx hsx
      obtain ⟨r, hr1, hr2⟩ := processContainer_done cfg net fuel c s sx hsx
      obtain ⟨rs, hrs1, hrs2, hrs3⟩ := ih sx s1 h
      refine ⟨r :: rs, ?_, by simp [hrs2], ?_⟩
      · rw [hrs1, hr1]
        simp
      · intro x hx
        rw [List.mem_cons] at hx
        rcases hx with hx | hx
        · rw [hx]
          exact hr2
        · exact hrs3 x hx
    · simp at h
    · simp at h

/-- Witness for C7: the one-container redis run appends exactly one
result whose verdict is yes. -/
theorem c7_one_result_per_container_witness :
    ∃ rs, sRedisDone.logs = initState.logs ++ rs ∧ rs.length = [obsRedis].length ∧
      ∀ r ∈ rs, r.isLatest = "yes" ∨ r.isLatest = "no" ∨ r.isLatest = "unknown" :=
  c7_one_result_per_container cfgNone netYes 1 [obsRedis] initState sRedisDone (by decide)

/-- Claim C8 (confirmed): a resolution error at any step of a container's
check - the latest lookup of a docker.io image, the current-tag lookup of
a non-docker.io image (which also covers unsupported registries and the
missing GHCR token), or the current-tag lookup after the docker.io
short-circuits - yields verdict unknown for that container, and the run
continues with the remaining containers; a failed container enumeration,
in contrast, aborts the whole process. -/
theorem c8_errors_degrade_to_unknown
    (cfg : Config) (net : Net) (fuel : Nat) (obs : ContainerObs) (rest : List ContainerObs) (s : RunState)
    (nm rd dg : String)
    (hn : obs.names.get? 0 = some nm)
    (hr : obs.repoDigests.get? 0 = some rd)
    (hd : (goSplit rd '@').get? 1 = some dg) :
    (∀ e s1, mainRegistry obs.image = "docker.io" →
       GetRemoteDockerInfo cfg net fuel (stripTag obs.image).1 "latest" "" s = some (.error e, s1) →
       processContainer cfg net fuel obs s =
         .done (check cfg nm ((stripTag obs.image).1 ++ ":" ++ (stripTag obs.image).2) "unknown" s1) ∧
       runAll cfg net fuel (obs :: rest) s =
         runAll cfg net fuel rest (check cfg nm ((stripTag obs.image).1 ++ ":" ++ (stripTag obs.image).2) "unknown" s1)) ∧
    (∀ e s1, mainRegistry obs.image ≠ "docker.io" →
       GetRemoteDockerInfo cfg net fuel (stripTag obs.image).1 (stripTag obs.image).2 dg s = some (.error e, s1) →
       processContainer cfg net fuel obs s =
         .done (check cfg nm ((stripTag obs.image).1 ++ ":" ++ (stripTag obs.image).2) "unknown" s1) ∧
       runAll cfg net fuel (obs :: rest) s =
         runAll cfg net fuel rest (check cfg nm ((stripTag obs.image).1 ++ ":" ++ (stripTag obs.image).2) "unknown" s1)) ∧
    (∀ L s1 e s2, mainRegistry obs.image = "docker.io" →
       GetRemoteDockerInfo cfg net fuel (stripTag obs.image).1 "latest" "" s = some (.ok L, s1) →
       dg ≠ L.digest → (stripTag obs.image).2 ≠ "latest" →
       GetRemoteDockerInfo cfg net fuel (stripTag obs.image).1 (stripTag obs.image).2 dg s1 = some (.error e, s2) →
       processContainer cfg net fuel obs s =
         .done (check cfg nm ((stripTag obs.image).1 ++ ":" ++ (stripTag obs.image).2) "unknown" s2) ∧
       runAll cfg net fuel (obs :: rest) s =
         runAll cfg net fuel rest (check cfg nm ((stripTag obs.image).1 ++ ":" ++ (stripTag obs.image).2) "unknown" s2)) ∧
    (∀ msg s0, mainModel cfg net fuel (.error msg) s0 = none) := by
  refine ⟨?_, ?_, ?_, fun msg s0 => rfl⟩
  · intro e s1 hregD hresE
    have hp : processContainer cfg net fuel obs s =
        .done (check cfg nm ((stripTag obs.image).1 ++ ":" ++ (stripTag obs.image).2) "unknown" s1) := by
      simp only [processContainer, hn, hr, hd, hregD, hresE]
      simp
    refine ⟨hp, ?_⟩
    rw [runAll, hp]
  · intro e s1 hregN hresE
    have hp : processContainer cfg net fuel obs s =
        .done (check cfg nm ((stripTag obs.image).1 ++ ":" ++ (stripTag obs.image).2) "unknown" s1) := by
      simp only [processContainer, hn, hr, hd]
      rw [if_neg hregN, afterLatest]
      simp only [hresE]
    refine ⟨hp, ?_⟩
    rw [runAll, hp]
  · intro L s1 e s2 hregD hlat hne htag hcur
    have hp : processContainer cfg net fuel obs s =
        .done (check cfg nm ((stripTag obs.image).1 ++ ":" ++ (stripTag obs.image).2) "unknown" s2) := by
      have hmain : processContainer cfg net fuel obs s =
          afterLatest cfg net fuel nm (stripTag obs.image).1 (stripTag obs.image).2 dg "docker.io" obs.os obs.architecture L s1 := by
        simp only [processContainer, hn, hr, hd, hregD, hlat]
        simp [hne, htag]
      rw [hmain, afterLatest]
      simp only [hcur]
    refine ⟨hp, ?_⟩
    rw [runAll, hp]

/-- Witness for C8: the gcr.io container fails with an unsupported-registry
error, gets verdict unknown, and the run proceeds to the rest of the list. -/
theorem c8_errors_degrade_to_unknown_witness :
    processContainer cfgNone netYes 1 obsGcr initState =
      .done (check cfgNone "/g" ((stripTag obsGcr.image).1 ++ ":" ++ (stripTag obsGcr.image).2) "unknown" initState) ∧
    runAll cfgNone netYes 1 (obsGcr :: [obsRedis]) initState =
      runAll cfgNone netYes 1 [obsRedis] (check cfgNone "/g" ((stripTag obsGcr.image).1 ++ ":" ++ (stripTag obsGcr.image).2) "unknown" initState) :=
  (c8_errors_degrade_to_unknown cfgNone netYes 1 obsGcr [obsRedis] initState "/g" "gcr.io/ns/app@sha256:Z" "sha256:Z"
    (by decide) (by decide) (by decide)).2.1 (.unsupportedImage "gcr.io/ns/app") initState (by decide) (by decide)
